import Mathlib

/-!
Verification development for the dpr-chat-backend Socket.IO chat server.

The repository holds two variants of the same server:
* the plain text variant (`server.js`, given here as `src/unnamed/part_000`):
  two channels, at most 50 messages per channel, text-only messages;
* the image-supporting variant embedded in `src/README.md` (lines 370-736):
  at most 25 messages per channel, messages may carry an `imageUrl`
  reference into the uploads blob store, and `deleteMessageImage` issues a
  best-effort deletion request when such a message is evicted or cleared.

This file is a shallow embedding of the stateful handlers: the in-memory
channel state is passed explicitly, socket emissions and file-system writes
become fields of an explicit result record, and the non-deterministic
inputs (uuidv4, the clock, the connection's userId) are parameters.
-/

namespace ChatBackend

/-- A chat message as built by the `send_message` handlers.
`timestamp` and `imageUrl` are optional: legacy persisted records may lack
`timestamp`, and only the image variant ever sets `imageUrl`. -/
structure Message where
  id : String
  userId : String
  username : String
  message : String
  timestamp : Option String
  imageUrl : Option String
deriving DecidableEq, Repr

/-- The in-memory message store: `let messages = { channel1: [], channel2: [] }`. -/
structure Messages where
  channel1 : List Message
  channel2 : List Message
deriving DecidableEq, Repr

/-- The initial empty store. -/
def initialMessages : Messages := { channel1 := [], channel2 := [] }

/-- `messages[channel]` for a channel name (only used under the handlers'
channel validation, so `channel` is "channel1" or "channel2"). -/
def getChannel (st : Messages) (ch : String) : List Message :=
  if ch = "channel1" then st.channel1 else st.channel2

/-- `messages[channel] = l` under the same proviso. -/
def setChannel (st : Messages) (ch : String) (l : List Message) : Messages :=
  if ch = "channel1" then { st with channel1 := l } else { st with channel2 := l }

/-- `MAX_MESSAGES_PER_CHANNEL` in the text variant (part_000 line 13). -/
def MAX_MESSAGES_PER_CHANNEL : Nat := 50

/-- `MAX_MESSAGES_PER_CHANNEL` in the image variant (README line 386). -/
def MAX_MESSAGES_PER_CHANNEL_IMG : Nat := 25

/-- `MAX_MESSAGE_LENGTH` (both variants). -/
def MAX_MESSAGE_LENGTH : Nat := 500

/-- The incoming `send_message` payload.  A field is `none` when it is
absent from the event data or is not a string (the handlers treat both the
same way through the `!x || typeof x !== 'string'` guards). -/
structure SendData where
  channel : Option String
  username : Option String
  message : Option String
  imageUrl : Option String
deriving DecidableEq, Repr

/-- Everything a `send_message` invocation produces besides console logs:
the next in-memory state, the `error` event sent back to the requesting
socket (if any), whether `saveMessages()` ran, the `new_message` broadcast
to all clients (if any), and the image-deletion requests issued to the
uploads store ( `deleteMessageImage` calls for messages with an imageUrl). -/
structure SendResult where
  state : Messages
  errorToSender : Option String
  saved : Bool
  broadcast : Option (String × Message)
  deletedImages : List String
deriving DecidableEq, Repr

/-- The early-return of a failed validation: `socket.emit('error', ...); return;`
with no mutation, no save and no broadcast. -/
def sendError (st : Messages) (e : String) : SendResult :=
  { state := st, errorToSender := some e, saved := false, broadcast := none,
    deletedImages := [] }

/-- JS `String.prototype.trim`: strip leading and trailing whitespace.
Written over the character list so that concrete instances evaluate. -/
def jsTrim (s : String) : String :=
  String.mk (((s.data.dropWhile Char.isWhitespace).reverse.dropWhile
    Char.isWhitespace).reverse)

/-- JS `String.prototype.startsWith`. -/
def jsStartsWith (s p : String) : Bool :=
  p.data.isPrefixOf s.data

/-- `!channel || !['channel1', 'channel2'].includes(channel)` negated:
an absent channel is not in the list, and the falsy `''` fails `includes`
as well, so the guard reduces to membership. -/
def isValidChannel : Option String → Bool
  | some c => c == "channel1" || c == "channel2"
  | none => false

/-- `username && typeof username === 'string' && username.trim().length > 0`
(the falsy `''` also has empty trim, so the guard reduces to the trim test). -/
def usernameOk : Option String → Bool
  | some u => !(jsTrim u == "")
  | none => false

/-- `message && typeof message === 'string' && message.trim().length > 0`;
this is the emptiness guard of the text variant and `hasMessage` in the
image variant. -/
def messageOk : Option String → Bool
  | some m => !(jsTrim m == "")
  | none => false

/-- `imageUrl && typeof imageUrl === 'string' && imageUrl.startsWith('/uploads/')`
(`hasImage` in the image variant; the falsy `''` fails `startsWith` too). -/
def hasImageB : Option String → Bool
  | some u => !(u == "") && jsStartsWith u "/uploads/"
  | none => false

/-- The `newMessage` object of the text variant (part_000 lines 138-144). -/
def mkTextMessage (userId fresh now : String) (d : SendData) : Message :=
  { id := fresh, userId := userId, username := jsTrim (d.username.getD ""),
    message := jsTrim (d.message.getD ""), timestamp := some now, imageUrl := none }

/-- The `newMessage` object of the image variant (README lines 632-643):
empty text when only an image is present, and `imageUrl` attached only
when `hasImage` held. -/
def mkImgMessage (userId fresh now : String) (d : SendData) : Message :=
  { id := fresh, userId := userId, username := jsTrim (d.username.getD ""),
    message := if messageOk d.message then jsTrim (d.message.getD "") else "",
    timestamp := some now,
    imageUrl := if hasImageB d.imageUrl then d.imageUrl else none }

/-- `push` followed by the conditional `shift`: append, and drop the head
when the configured maximum is exceeded. -/
def evict (maxN : Nat) (l : List Message) : List Message :=
  if maxN < l.length then l.tail else l

/-- `deleteMessageImage` (README lines 465-478): a message carrying an
`imageUrl` produces one deletion request for that reference; one without
produces none.  The internal try/catch means a file-system failure is
logged and never escapes, so the function is total. -/
def deleteMessageImage (m : Message) : List String :=
  match m.imageUrl with
  | some url => [url]
  | none => []

/-- The `send_message` handler of the text variant (part_000 lines 113-164). -/
def send_message (userId fresh now : String) (d : SendData) (st : Messages) :
    SendResult :=
  if !isValidChannel d.channel then sendError st "Invalid channel"
  else if !usernameOk d.username then sendError st "Username is required"
  else if !messageOk d.message then sendError st "Message cannot be empty"
  else if MAX_MESSAGE_LENGTH < (d.message.getD "").length then
    sendError st "Message too long (max 500 characters)"
  else
    let ch := d.channel.getD ""
    let newMessage := mkTextMessage userId fresh now d
    let lst := getChannel st ch ++ [newMessage]
    { state := setChannel st ch (evict MAX_MESSAGES_PER_CHANNEL lst),
      errorToSender := none, saved := true,
      broadcast := some (ch, newMessage), deletedImages := [] }

/-- The `send_message` handler of the image variant (README lines 602-665):
same channel and username checks, then content is acceptable when either a
non-empty trimmed message or a `/uploads/`-prefixed image reference is
present; the length bound applies only when a message is present; on
eviction the removed (oldest) message's image, if any, is deleted. -/
def send_message_img (userId fresh now : String) (d : SendData) (st : Messages) :
    SendResult :=
  if !isValidChannel d.channel then sendError st "Invalid channel"
  else if !usernameOk d.username then sendError st "Username is required"
  else if !messageOk d.message && !hasImageB d.imageUrl then
    sendError st "Message or image is required"
  else if messageOk d.message && decide (MAX_MESSAGE_LENGTH < (d.message.getD "").length) then
    sendError st "Message too long (max 500 characters)"
  else
    let ch := d.channel.getD ""
    let newMessage := mkImgMessage userId fresh now d
    let lst := getChannel st ch ++ [newMessage]
    { state := setChannel st ch (evict MAX_MESSAGES_PER_CHANNEL_IMG lst),
      errorToSender := none, saved := true,
      broadcast := some (ch, newMessage),
      deletedImages :=
        if MAX_MESSAGES_PER_CHANNEL_IMG < lst.length then
          deleteMessageImage (lst.head?.getD newMessage)
        else [] }

/-! ### The `clear_chat` admin handler -/

/-- The incoming `clear_chat` payload; `secret` is `none` when absent. -/
structure ClearData where
  channel : Option String
  secret : Option String
deriving DecidableEq, Repr

/-- Observable outcome of a `clear_chat` invocation: next state, `error`
event to the requester (if any), whether `saveMessages()` ran, the payload
of the `chat_cleared` broadcast (if any), whether the follow-up
`message_history` broadcast was emitted, and the image deletion requests
(image variant only). -/
structure ClearResult where
  state : Messages
  errorToSender : Option String
  saved : Bool
  clearedBroadcast : Option String
  historyBroadcast : Bool
  deletedImages : List String
deriving DecidableEq, Repr

/-- Early-return of a failed `clear_chat` validation. -/
def clearError (st : Messages) (e : String) : ClearResult :=
  { state := st, errorToSender := some e, saved := false,
    clearedBroadcast := none, historyBroadcast := false, deletedImages := [] }

/-- JS truthiness of the optional `channel` string: present and non-empty. -/
def chTruthy : Option String → Bool
  | some c => !(c == "")
  | none => false

/-- `channel && !['channel1', 'channel2', 'both'].includes(channel)`:
a truthy channel outside the allowed list. -/
def clearChannelInvalid (c : Option String) : Bool :=
  chTruthy c && !(c == some "channel1" || c == some "channel2" || c == some "both")

/-- `channel || 'both'`: the JS or-default over a possibly falsy string. -/
def truthyOr (c : Option String) (dflt : String) : String :=
  match c with
  | some s => if s = "" then dflt else s
  | none => dflt

/-- The `clear_chat` handler of the text variant (part_000 lines 167-204).
`adminSecret` models the `ADMIN_SECRET` environment variable, `none` when
unset; the comparison `secret !== ADMIN_SECRET` is exact equality of the
two optional values (undefined equals undefined). -/
def clear_chat (adminSecret : Option String) (d : ClearData) (st : Messages) :
    ClearResult :=
  if d.secret ≠ adminSecret then
    clearError st "Unauthorized: Invalid admin secret"
  else if clearChannelInvalid d.channel then
    clearError st "Invalid channel"
  else
    let st2 :=
      if d.channel == some "both" || !chTruthy d.channel then
        { channel1 := [], channel2 := [] }
      else setChannel st (d.channel.getD "") []
    { state := st2, errorToSender := none, saved := true,
      clearedBroadcast := some (truthyOr d.channel "both"),
      historyBroadcast := true, deletedImages := [] }

/-- The `clear_chat` handler of the image variant (README lines 667-711):
identical control flow, and every message of a targeted channel gets its
image (if any) deleted before the channel is emptied. -/
def clear_chat_img (adminSecret : Option String) (d : ClearData) (st : Messages) :
    ClearResult :=
  if d.secret ≠ adminSecret then
    clearError st "Unauthorized: Invalid admin secret"
  else if clearChannelInvalid d.channel then
    clearError st "Invalid channel"
  else if d.channel == some "both" || !chTruthy d.channel then
    { state := { channel1 := [], channel2 := [] }, errorToSender := none,
      saved := true, clearedBroadcast := some (truthyOr d.channel "both"),
      historyBroadcast := true,
      deletedImages :=
        st.channel1.flatMap deleteMessageImage ++ st.channel2.flatMap deleteMessageImage }
  else
    { state := setChannel st (d.channel.getD "") [], errorToSender := none,
      saved := true, clearedBroadcast := some (truthyOr d.channel "both"),
      historyBroadcast := true,
      deletedImages := (getChannel st (d.channel.getD "")).flatMap deleteMessageImage }

/-! ### The persistence layer (`loadMessages` / `saveMessages`)

`loadMessages` parses whatever JSON the snapshot file holds and installs it
verbatim (`messages = loadedMessages`) *before* computing the log
statistics, so the parsed value need not have both channel arrays.  A
snapshot as seen right after `JSON.parse` is therefore modelled with both
channels optional. -/

/-- A parsed snapshot: the two channel keys may be absent. -/
structure RawSnapshot where
  channel1 : Option (List Message)
  channel2 : Option (List Message)
deriving DecidableEq, Repr

/-- What a snapshot file can hold: absent, unreadable (`fs.readFileSync`
throws), malformed (`JSON.parse` throws), or a parsed snapshot. -/
inductive FileData
  | absent
  | unreadable
  | malformed
  | content (s : RawSnapshot)
deriving DecidableEq, Repr

/-- The two snapshot locations: `messages.json` and `messages-backup.json`. -/
structure Disk where
  messagesFile : FileData
  backupFile : FileData
deriving DecidableEq, Repr

/-- The initial in-memory store seen as a raw snapshot (both channels `[]`). -/
def initialRaw : RawSnapshot := { channel1 := some [], channel2 := some [] }

/-- A well-formed store as a raw snapshot (both channel keys present). -/
def rawOfMessages (st : Messages) : RawSnapshot :=
  { channel1 := some st.channel1, channel2 := some st.channel2 }

/-- `saveMessages` (part_000 lines 75-81): overwrite `messages.json` with
the serialization of the current store. -/
def saveMessages (current : RawSnapshot) (disk : Disk) : Disk :=
  { disk with messagesFile := FileData.content current }

/-- The body of `loadMessages` after a successful parse (part_000 lines
52-67): the parsed value is installed as the store first; the statistics
lines then dereference `messages.channel1.length` and
`messages.channel2.length`, which throws (and is caught, leaving the store
as installed) when either channel key is absent; only on success does a
backup-sourced load migrate by re-saving to `messages.json`. -/
def processLoaded (s : RawSnapshot) (fromBackup : Bool) (disk : Disk) :
    RawSnapshot × Disk :=
  match s.channel1, s.channel2 with
  | some _, some _ =>
      if fromBackup then (s, saveMessages s disk) else (s, disk)
  | _, _ => (s, disk)

/-- `loadMessages` (part_000 lines 33-72), run at startup when the store
is `initialRaw`: read `messages.json`, else `messages-backup.json`; any
read or parse exception is caught and leaves the store at its initial
empty value. -/
def loadMessages (disk : Disk) : RawSnapshot × Disk :=
  match disk.messagesFile with
  | FileData.content s => processLoaded s false disk
  | FileData.unreadable => (initialRaw, disk)
  | FileData.malformed => (initialRaw, disk)
  | FileData.absent =>
    match disk.backupFile with
    | FileData.content s => processLoaded s true disk
    | FileData.unreadable => (initialRaw, disk)
    | FileData.malformed => (initialRaw, disk)
    | FileData.absent => (initialRaw, disk)

/-! ### Basic lemmas -/

theorem isValidChannel_iff {c : Option String} :
    isValidChannel c = true ↔ c = some "channel1" ∨ c = some "channel2" := by
  cases c with
  | none => simp [isValidChannel]
  | some s => simp [isValidChannel]

theorem getChannel_setChannel_self (st : Messages) (ch : String) (l : List Message) :
    getChannel (setChannel st ch l) ch = l := by
  by_cases h : ch = "channel1" <;> simp [getChannel, setChannel, h]

theorem evict_length_le {maxN : Nat} {l : List Message} (h : l.length ≤ maxN + 1) :
    (evict maxN l).length ≤ maxN := by
  unfold evict
  split
  · simp only [List.length_tail]
    omega
  · omega

theorem evict_append_of_full {maxN : Nat} {l : List Message} (m : Message)
    (h : maxN ≤ l.length) (h0 : l ≠ []) :
    evict maxN (l ++ [m]) = l.tail ++ [m] := by
  cases l with
  | nil => exact absurd rfl h0
  | cons a as =>
    unfold evict
    rw [if_pos]
    · simp
    · simp only [List.length_append, List.length_cons, List.length_nil] at h ⊢
      omega

theorem evict_getLast (maxN : Nat) (l : List Message) (m : Message) (h : 0 < maxN) :
    (evict maxN (l ++ [m])).getLast? = some m := by
  cases l with
  | nil =>
    unfold evict
    rw [if_neg (by simp; omega)]
    simp
  | cons a as =>
    unfold evict
    split
    · rw [show (a :: as) ++ [m] = a :: (as ++ [m]) from rfl]
      rw [List.tail_cons, List.getLast?_concat]
    · rw [List.getLast?_concat]

/-! ### Characterization of the `send_message` handlers -/

theorem send_message_accept (userId fresh now : String) (d : SendData) (st : Messages)
    (h1 : isValidChannel d.channel = true) (h2 : usernameOk d.username = true)
    (h3 : messageOk d.message = true)
    (h4 : ¬ MAX_MESSAGE_LENGTH < (d.message.getD "").length) :
    send_message userId fresh now d st =
      { state := setChannel st (d.channel.getD "")
          (evict MAX_MESSAGES_PER_CHANNEL
            (getChannel st (d.channel.getD "") ++ [mkTextMessage userId fresh now d])),
        errorToSender := none, saved := true,
        broadcast := some (d.channel.getD "", mkTextMessage userId fresh now d),
        deletedImages := [] } := by
  unfold send_message
  simp [h1, h2, h3, h4]

theorem send_message_error_inv (userId fresh now : String) (d : SendData) (st : Messages)
    (h : (send_message userId fresh now d st).errorToSender = none) :
    isValidChannel d.channel = true ∧ usernameOk d.username = true ∧
    messageOk d.message = true ∧ ¬ MAX_MESSAGE_LENGTH < (d.message.getD "").length := by
  unfold send_message at h
  by_cases h1 : isValidChannel d.channel <;>
  by_cases h2 : usernameOk d.username <;>
  by_cases h3 : messageOk d.message <;>
  by_cases h4 : MAX_MESSAGE_LENGTH < (d.message.getD "").length <;>
  simp_all [sendError]

theorem send_message_img_accept (userId fresh now : String) (d : SendData) (st : Messages)
    (h1 : isValidChannel d.channel = true) (h2 : usernameOk d.username = true)
    (h3 : (!messageOk d.message && !hasImageB d.imageUrl) = false)
    (h4 : (messageOk d.message &&
           decide (MAX_MESSAGE_LENGTH < (d.message.getD "").length)) = false) :
    send_message_img userId fresh now d st =
      { state := setChannel st (d.channel.getD "")
          (evict MAX_MESSAGES_PER_CHANNEL_IMG
            (getChannel st (d.channel.getD "") ++ [mkImgMessage userId fresh now d])),
        errorToSender := none, saved := true,
        broadcast := some (d.channel.getD "", mkImgMessage userId fresh now d),
        deletedImages :=
          if MAX_MESSAGES_PER_CHANNEL_IMG <
              (getChannel st (d.channel.getD "") ++ [mkImgMessage userId fresh now d]).length
          then deleteMessageImage
              ((getChannel st (d.channel.getD "") ++
                [mkImgMessage userId fresh now d]).head?.getD (mkImgMessage userId fresh now d))
          else [] } := by
  unfold send_message_img
  simp [h1, h2, h3, h4]

theorem send_message_img_error_inv (userId fresh now : String) (d : SendData) (st : Messages)
    (h : (send_message_img userId fresh now d st).errorToSender = none) :
    isValidChannel d.channel = true ∧ usernameOk d.username = true ∧
    (!messageOk d.message && !hasImageB d.imageUrl) = false ∧
    (messageOk d.message &&
      decide (MAX_MESSAGE_LENGTH < (d.message.getD "").length)) = false := by
  unfold send_message_img at h
  by_cases h1 : isValidChannel d.channel <;>
  by_cases h2 : usernameOk d.username <;>
  by_cases h3 : (!messageOk d.message && !hasImageB d.imageUrl) = true <;>
  by_cases h4 : (messageOk d.message &&
      decide (MAX_MESSAGE_LENGTH < (d.message.getD "").length)) = true <;>
  simp_all [sendError]

/-! ### Retention bound and FIFO eviction -/

theorem send_message_state_cases (userId fresh now : String) (d : SendData)
    (st : Messages) :
    (send_message userId fresh now d st).state = st ∨
    ((d.channel = some "channel1" ∨ d.channel = some "channel2") ∧
      (send_message userId fresh now d st).state =
        setChannel st (d.channel.getD "")
          (evict MAX_MESSAGES_PER_CHANNEL
            (getChannel st (d.channel.getD "") ++ [mkTextMessage userId fresh now d]))) := by
  by_cases h1 : isValidChannel d.channel
  · by_cases h2 : usernameOk d.username
    · by_cases h3 : messageOk d.message
      · by_cases h4 : MAX_MESSAGE_LENGTH < (d.message.getD "").length
        · left
          unfold send_message
          simp [h1, h2, h3, h4, sendError]
        · right
          exact ⟨isValidChannel_iff.mp h1,
            by rw [send_message_accept userId fresh now d st h1 h2 h3 h4]⟩
      · left
        unfold send_message
        simp [h1, h2, h3, sendError]
    · left
      unfold send_message
      simp [h1, h2, sendError]
  · left
    unfold send_message
    simp [h1, sendError]

theorem send_message_img_state_cases (userId fresh now : String) (d : SendData)
    (st : Messages) :
    (send_message_img userId fresh now d st).state = st ∨
    ((d.channel = some "channel1" ∨ d.channel = some "channel2") ∧
      (send_message_img userId fresh now d st).state =
        setChannel st (d.channel.getD "")
          (evict MAX_MESSAGES_PER_CHANNEL_IMG
            (getChannel st (d.channel.getD "") ++ [mkImgMessage userId fresh now d]))) := by
  by_cases h1 : isValidChannel d.channel
  · by_cases h2 : usernameOk d.username
    · by_cases h3 : (!messageOk d.message && !hasImageB d.imageUrl) = true
      · left
        unfold send_message_img
        simp [h1, h2, h3, sendError]
      · by_cases h4 : (messageOk d.message &&
            decide (MAX_MESSAGE_LENGTH < (d.message.getD "").length)) = true
        · left
          unfold send_message_img
          simp [h1, h2, h3, h4, sendError]
        · right
          refine ⟨isValidChannel_iff.mp h1, ?_⟩
          rw [send_message_img_accept userId fresh now d st h1 h2
            (Bool.eq_false_iff.mpr h3) (Bool.eq_false_iff.mpr h4)]
    · left
      unfold send_message_img
      simp [h1, h2, sendError]
  · left
    unfold send_message_img
    simp [h1, sendError]

theorem setChannel_one (st : Messages) (l : List Message) :
    setChannel st "channel1" l = { st with channel1 := l } := by
  simp [setChannel]

theorem setChannel_two (st : Messages) (l : List Message) :
    setChannel st "channel2" l = { st with channel2 := l } := by
  simp [setChannel]

theorem getChannel_one (st : Messages) : getChannel st "channel1" = st.channel1 := by
  simp [getChannel]

theorem getChannel_two (st : Messages) : getChannel st "channel2" = st.channel2 := by
  simp [getChannel]

theorem send_message_state_bound (userId fresh now : String) (d : SendData)
    (st : Messages)
    (h1 : st.channel1.length ≤ MAX_MESSAGES_PER_CHANNEL)
    (h2 : st.channel2.length ≤ MAX_MESSAGES_PER_CHANNEL) :
    (send_message userId fresh now d st).state.channel1.length ≤ MAX_MESSAGES_PER_CHANNEL ∧
    (send_message userId fresh now d st).state.channel2.length ≤ MAX_MESSAGES_PER_CHANNEL := by
  rcases send_message_state_cases userId fresh now d st with h | ⟨hch, h⟩
  · rw [h]
    exact ⟨h1, h2⟩
  · rcases hch with hc | hc
    · rw [h, hc]
      simp only [Option.getD_some, setChannel_one, getChannel_one]
      exact ⟨evict_length_le (by simp; omega), h2⟩
    · rw [h, hc]
      simp only [Option.getD_some, setChannel_two, getChannel_two]
      exact ⟨h1, evict_length_le (by simp; omega)⟩

theorem send_message_img_state_bound (userId fresh now : String) (d : SendData)
    (st : Messages)
    (h1 : st.channel1.length ≤ MAX_MESSAGES_PER_CHANNEL_IMG)
    (h2 : st.channel2.length ≤ MAX_MESSAGES_PER_CHANNEL_IMG) :
    (send_message_img userId fresh now d st).state.channel1.length ≤
        MAX_MESSAGES_PER_CHANNEL_IMG ∧
    (send_message_img userId fresh now d st).state.channel2.length ≤
        MAX_MESSAGES_PER_CHANNEL_IMG := by
  rcases send_message_img_state_cases userId fresh now d st with h | ⟨hch, h⟩
  · rw [h]
    exact ⟨h1, h2⟩
  · rcases hch with hc | hc
    · rw [h, hc]
      simp only [Option.getD_some, setChannel_one, getChannel_one]
      exact ⟨evict_length_le (by simp; omega), h2⟩
    · rw [h, hc]
      simp only [Option.getD_some, setChannel_two, getChannel_two]
      exact ⟨h1, evict_length_le (by simp; omega)⟩

/-- One `send_message` request with its non-deterministic inputs: the
session's userId, the fresh uuid, the clock reading, and the payload. -/
structure SendInput where
  userId : String
  fresh : String
  now : String
  data : SendData
deriving Repr

/-- A sequence of `send_message` requests against the text variant. -/
def runSends (inputs : List SendInput) (st : Messages) : Messages :=
  inputs.foldl (fun s i => (send_message i.userId i.fresh i.now i.data s).state) st

/-- A sequence of `send_message` requests against the image variant. -/
def runSendsImg (inputs : List SendInput) (st : Messages) : Messages :=
  inputs.foldl (fun s i => (send_message_img i.userId i.fresh i.now i.data s).state) st

theorem runSends_bound (inputs : List SendInput) :
    ∀ st : Messages, st.channel1.length ≤ MAX_MESSAGES_PER_CHANNEL →
      st.channel2.length ≤ MAX_MESSAGES_PER_CHANNEL →
      (runSends inputs st).channel1.length ≤ MAX_MESSAGES_PER_CHANNEL ∧
      (runSends inputs st).channel2.length ≤ MAX_MESSAGES_PER_CHANNEL := by
  induction inputs with
  | nil => exact fun st h1 h2 => ⟨h1, h2⟩
  | cons i rest ih =>
    intro st h1 h2
    have hstep := send_message_state_bound i.userId i.fresh i.now i.data st h1 h2
    simpa only [runSends, List.foldl_cons] using
      ih ((send_message i.userId i.fresh i.now i.data st).state) hstep.1 hstep.2

theorem runSendsImg_bound (inputs : List SendInput) :
    ∀ st : Messages, st.channel1.length ≤ MAX_MESSAGES_PER_CHANNEL_IMG →
      st.channel2.length ≤ MAX_MESSAGES_PER_CHANNEL_IMG →
      (runSendsImg inputs st).channel1.length ≤ MAX_MESSAGES_PER_CHANNEL_IMG ∧
      (runSendsImg inputs st).channel2.length ≤ MAX_MESSAGES_PER_CHANNEL_IMG := by
  induction inputs with
  | nil => exact fun st h1 h2 => ⟨h1, h2⟩
  | cons i rest ih =>
    intro st h1 h2
    have hstep := send_message_img_state_bound i.userId i.fresh i.now i.data st h1 h2
    simpa only [runSendsImg, List.foldl_cons] using
      ih ((send_message_img i.userId i.fresh i.now i.data st).state) hstep.1 hstep.2

theorem send_message_fifo (userId fresh now : String) (d : SendData) (st : Messages)
    (ch : String) (hch : d.channel = some ch)
    (hacc : (send_message userId fresh now d st).errorToSender = none)
    (hfull : MAX_MESSAGES_PER_CHANNEL ≤ (getChannel st ch).length) :
    getChannel (send_message userId fresh now d st).state ch
      = (getChannel st ch).tail ++ [mkTextMessage userId fresh now d] := by
  obtain ⟨h1, h2, h3, h4⟩ := send_message_error_inv userId fresh now d st hacc
  rw [send_message_accept userId fresh now d st h1 h2 h3 h4]
  simp only [hch, Option.getD_some]
  rw [getChannel_setChannel_self]
  apply evict_append_of_full _ hfull
  intro hnil
  rw [hnil] at hfull
  simp [MAX_MESSAGES_PER_CHANNEL] at hfull

theorem send_message_img_fifo (userId fresh now : String) (d : SendData) (st : Messages)
    (ch : String) (hch : d.channel = some ch)
    (hacc : (send_message_img userId fresh now d st).errorToSender = none)
    (hfull : MAX_MESSAGES_PER_CHANNEL_IMG ≤ (getChannel st ch).length) :
    getChannel (send_message_img userId fresh now d st).state ch
      = (getChannel st ch).tail ++ [mkImgMessage userId fresh now d] := by
  obtain ⟨h1, h2, h3, h4⟩ := send_message_img_error_inv userId fresh now d st hacc
  rw [send_message_img_accept userId fresh now d st h1 h2 h3 h4]
  simp only [hch, Option.getD_some]
  rw [getChannel_setChannel_self]
  apply evict_append_of_full _ hfull
  intro hnil
  rw [hnil] at hfull
  simp [MAX_MESSAGES_PER_CHANNEL_IMG] at hfull

/-! ### Sample data for concrete instantiations -/

/-- A sample stored text message. -/
def sampleMsg : Message :=
  { id := "id0", userId := "u0", username := "bob", message := "old",
    timestamp := some "2024-01-01T00:00:00.000Z", imageUrl := none }

/-- A sample stored message carrying an image reference. -/
def sampleImgMsg : Message :=
  { id := "id1", userId := "u0", username := "bob", message := "",
    timestamp := some "2024-01-01T00:00:00.000Z", imageUrl := some "/uploads/pic.png" }

/-- A well-formed text submission to channel1. -/
def sampleSend : SendData :=
  { channel := some "channel1", username := some "alice", message := some "hi",
    imageUrl := none }

/-- A submission naming an unknown channel. -/
def badChannelSend : SendData :=
  { channel := some "lobby", username := some "alice", message := some "hi",
    imageUrl := none }

/-- A submission with non-empty text and an image reference outside
`/uploads/`. -/
def badImgSend : SendData :=
  { channel := some "channel1", username := some "alice", message := some "hi",
    imageUrl := some "https://example.com/pic.png" }

/-! ### The claims -/

/-- C1: For every channel and every sequence of message submissions starting
from a state in which each channel holds at most the configured maximum
(50 in the text variant, 25 in the image variant), the channel's length
stays at most that maximum; and when an accepted insertion into a channel
already holding at least the maximum would exceed it, the oldest (first)
message of that channel is the one removed and the new message is appended
(FIFO eviction). -/
theorem send_message_retention_and_fifo
    (inputsT inputsI : List SendInput) (stT stI : Messages)
    (userId fresh now : String) (d : SendData) (ch : String)
    (stFT stFI : Messages)
    (hT1 : stT.channel1.length ≤ MAX_MESSAGES_PER_CHANNEL)
    (hT2 : stT.channel2.length ≤ MAX_MESSAGES_PER_CHANNEL)
    (hI1 : stI.channel1.length ≤ MAX_MESSAGES_PER_CHANNEL_IMG)
    (hI2 : stI.channel2.length ≤ MAX_MESSAGES_PER_CHANNEL_IMG)
    (hch : d.channel = some ch)
    (haccT : (send_message userId fresh now d stFT).errorToSender = none)
    (hfullT : MAX_MESSAGES_PER_CHANNEL ≤ (getChannel stFT ch).length)
    (haccI : (send_message_img userId fresh now d stFI).errorToSender = none)
    (hfullI : MAX_MESSAGES_PER_CHANNEL_IMG ≤ (getChannel stFI ch).length) :
    (runSends inputsT stT).channel1.length ≤ MAX_MESSAGES_PER_CHANNEL ∧
    (runSends inputsT stT).channel2.length ≤ MAX_MESSAGES_PER_CHANNEL ∧
    (runSendsImg inputsI stI).channel1.length ≤ MAX_MESSAGES_PER_CHANNEL_IMG ∧
    (runSendsImg inputsI stI).channel2.length ≤ MAX_MESSAGES_PER_CHANNEL_IMG ∧
    getChannel (send_message userId fresh now d stFT).state ch
      = (getChannel stFT ch).tail ++ [mkTextMessage userId fresh now d] ∧
    getChannel (send_message_img userId fresh now d stFI).state ch
      = (getChannel stFI ch).tail ++ [mkImgMessage userId fresh now d] :=
  ⟨(runSends_bound inputsT stT hT1 hT2).1,
   (runSends_bound inputsT stT hT1 hT2).2,
   (runSendsImg_bound inputsI stI hI1 hI2).1,
   (runSendsImg_bound inputsI stI hI1 hI2).2,
   send_message_fifo userId fresh now d stFT ch hch haccT hfullT,
   send_message_img_fifo userId fresh now d stFI ch hch haccI hfullI⟩

/-- Witness for C1 at concrete inputs: a full 50-message channel in the
text variant and a full 25-message channel in the image variant. -/
theorem send_message_retention_and_fifo_witness :
    getChannel (send_message "u9" "f9" "t9" sampleSend
        { channel1 := List.replicate 50 sampleMsg, channel2 := [] }).state "channel1"
      = (getChannel { channel1 := List.replicate 50 sampleMsg, channel2 := [] }
          "channel1").tail ++ [mkTextMessage "u9" "f9" "t9" sampleSend] ∧
    getChannel (send_message_img "u9" "f9" "t9" sampleSend
        { channel1 := List.replicate 25 sampleMsg, channel2 := [] }).state "channel1"
      = (getChannel { channel1 := List.replicate 25 sampleMsg, channel2 := [] }
          "channel1").tail ++ [mkImgMessage "u9" "f9" "t9" sampleSend] := by
  have h := send_message_retention_and_fifo [] [] initialMessages initialMessages
    "u9" "f9" "t9" sampleSend "channel1"
    { channel1 := List.replicate 50 sampleMsg, channel2 := [] }
    { channel1 := List.replicate 25 sampleMsg, channel2 := [] }
    (by decide) (by decide) (by decide) (by decide) rfl
    (by decide) (by decide) (by decide) (by decide)
  exact ⟨h.2.2.2.2.1, h.2.2.2.2.2⟩

/-- The spec's ordered validation outcome for the text variant, written
from the spec's words: the first failing check among invalid channel,
missing display name, empty content, message too long; `none` when all
pass. -/
def specFirstFailure (d : SendData) : Option String :=
  if !isValidChannel d.channel then some "Invalid channel"
  else if !usernameOk d.username then some "Username is required"
  else if !messageOk d.message then some "Message cannot be empty"
  else if MAX_MESSAGE_LENGTH < (d.message.getD "").length then
    some "Message too long (max 500 characters)"
  else none

/-- The spec's ordered validation outcome for the image variant: empty
content means neither non-empty text nor a valid `/uploads/` reference,
and the length bound applies only when text is present. -/
def specFirstFailureImg (d : SendData) : Option String :=
  if !isValidChannel d.channel then some "Invalid channel"
  else if !usernameOk d.username then some "Username is required"
  else if !messageOk d.message && !hasImageB d.imageUrl then
    some "Message or image is required"
  else if messageOk d.message &&
      decide (MAX_MESSAGE_LENGTH < (d.message.getD "").length) then
    some "Message too long (max 500 characters)"
  else none

/-- C2: both `send_message` handlers check their constraints in the fixed
order invalid-channel, missing-display-name, empty-content,
message-too-long, short-circuiting on the first failure (their error to
the requesting session equals the spec's first-failure function), and
every rejected submission leaves the state unchanged, writes no snapshot
and emits no broadcast. -/
theorem send_message_validation_order
    (userId fresh now : String) (d : SendData) (st : Messages) :
    (send_message userId fresh now d st).errorToSender = specFirstFailure d ∧
    (send_message_img userId fresh now d st).errorToSender = specFirstFailureImg d ∧
    (specFirstFailure d ≠ none →
      (send_message userId fresh now d st).state = st ∧
      (send_message userId fresh now d st).saved = false ∧
      (send_message userId fresh now d st).broadcast = none) ∧
    (specFirstFailureImg d ≠ none →
      (send_message_img userId fresh now d st).state = st ∧
      (send_message_img userId fresh now d st).saved = false ∧
      (send_message_img userId fresh now d st).broadcast = none) := by
  by_cases h1 : isValidChannel d.channel <;>
  by_cases h2 : usernameOk d.username <;>
  by_cases hm : messageOk d.message <;>
  by_cases hi : hasImageB d.imageUrl <;>
  by_cases hl : MAX_MESSAGE_LENGTH < (d.message.getD "").length <;>
  simp [send_message, send_message_img, specFirstFailure, specFirstFailureImg,
    sendError, h1, h2, hm, hi, hl]

/-- Witness for C2: an unknown channel name is rejected with "Invalid
channel" (even though all other fields are fine) and nothing changes. -/
theorem send_message_validation_order_witness :
    (send_message "u9" "f9" "t9" badChannelSend initialMessages).errorToSender
      = some "Invalid channel" ∧
    (send_message "u9" "f9" "t9" badChannelSend initialMessages).state
      = initialMessages ∧
    (send_message "u9" "f9" "t9" badChannelSend initialMessages).saved = false ∧
    (send_message "u9" "f9" "t9" badChannelSend initialMessages).broadcast = none ∧
    (send_message_img "u9" "f9" "t9" badChannelSend initialMessages).state
      = initialMessages := by
  have h := send_message_validation_order "u9" "f9" "t9" badChannelSend initialMessages
  have hT := h.2.2.1 (by decide)
  have hI := h.2.2.2 (by decide)
  refine ⟨?_, hT.1, hT.2.1, hT.2.2, hI.1⟩
  rw [h.1]
  decide

/-- C3: a clear request whose secret does not exactly equal the configured
admin secret is answered with the Unauthorized error to the requester
only, and in both variants the channel state is untouched, no snapshot is
written, and neither the cleared-notice nor the history broadcast is
emitted (and no image deletion is requested). -/
theorem clear_chat_unauthorized
    (adminSecret : Option String) (d : ClearData) (st : Messages)
    (h : d.secret ≠ adminSecret) :
    (clear_chat adminSecret d st).state = st ∧
    (clear_chat adminSecret d st).errorToSender
      = some "Unauthorized: Invalid admin secret" ∧
    (clear_chat adminSecret d st).saved = false ∧
    (clear_chat adminSecret d st).clearedBroadcast = none ∧
    (clear_chat adminSecret d st).historyBroadcast = false ∧
    (clear_chat_img adminSecret d st).state = st ∧
    (clear_chat_img adminSecret d st).errorToSender
      = some "Unauthorized: Invalid admin secret" ∧
    (clear_chat_img adminSecret d st).saved = false ∧
    (clear_chat_img adminSecret d st).clearedBroadcast = none ∧
    (clear_chat_img adminSecret d st).historyBroadcast = false ∧
    (clear_chat_img adminSecret d st).deletedImages = [] := by
  unfold clear_chat clear_chat_img
  rw [if_pos h, if_pos h]
  simp [clearError]

/-- Witness for C3: a wrong secret against a configured admin secret on a
non-empty state. -/
theorem clear_chat_unauthorized_witness :
    (clear_chat (some "s3cret") { channel := some "both", secret := some "wrong" }
        { channel1 := [sampleMsg], channel2 := [] }).state
      = { channel1 := [sampleMsg], channel2 := [] } ∧
    (clear_chat (some "s3cret") { channel := some "both", secret := some "wrong" }
        { channel1 := [sampleMsg], channel2 := [] }).saved = false ∧
    (clear_chat_img (some "s3cret") { channel := some "both", secret := some "wrong" }
        { channel1 := [sampleMsg], channel2 := [] }).state
      = { channel1 := [sampleMsg], channel2 := [] } := by
  have h := clear_chat_unauthorized (some "s3cret")
    { channel := some "both", secret := some "wrong" }
    { channel1 := [sampleMsg], channel2 := [] } (by decide)
  exact ⟨h.1, h.2.2.1, h.2.2.2.2.2.1⟩

/-- C4: save followed by load is the identity on channel states: for every
state mapping the two channel names to message arrays (including messages
whose optional `timestamp` is absent), saving and then loading yields the
state verbatim, field for field, with no fields synthesized. -/
theorem save_load_roundtrip (st : Messages) (disk : Disk) :
    loadMessages (saveMessages (rawOfMessages st) disk)
      = (rawOfMessages st, saveMessages (rawOfMessages st) disk) := rfl

/-- C5 (failing case): evaluating `loadMessages` at the failure inputs.
An unreadable file and malformed JSON leave the empty initial state, as
the claim says; but a successfully parsed snapshot missing the channel1
key is installed verbatim as the in-memory state before the statistics
lines throw, so — despite the catch block's "Starting with empty message
history" log — the resulting state is the partial snapshot, not the empty
initial state. -/
theorem loadMessages_failure_states :
    (loadMessages ⟨FileData.unreadable, FileData.absent⟩).1 = initialRaw ∧
    (loadMessages ⟨FileData.malformed, FileData.absent⟩).1 = initialRaw ∧
    (loadMessages ⟨FileData.content ⟨none, some []⟩, FileData.absent⟩).1
      = ⟨none, some []⟩ ∧
    (loadMessages ⟨FileData.content ⟨none, some []⟩, FileData.absent⟩).1
      ≠ initialRaw :=
  ⟨rfl, rfl, rfl, by decide⟩

/-- C6: whenever FIFO eviction removes a message that carries an image
reference, exactly one deletion request for that reference is issued, and
the submission itself still succeeds (state saved, message broadcast). -/
theorem evicted_image_single_delete
    (userId fresh now : String) (d : SendData) (st : Messages)
    (ch : String) (m0 : Message) (ref : String)
    (hch : d.channel = some ch)
    (hacc : (send_message_img userId fresh now d st).errorToSender = none)
    (hfull : MAX_MESSAGES_PER_CHANNEL_IMG ≤ (getChannel st ch).length)
    (hhead : (getChannel st ch).head? = some m0)
    (href : m0.imageUrl = some ref) :
    (send_message_img userId fresh now d st).deletedImages = [ref] ∧
    (send_message_img userId fresh now d st).saved = true ∧
    (send_message_img userId fresh now d st).broadcast
      = some (ch, mkImgMessage userId fresh now d) := by
  obtain ⟨h1, h2, h3, h4⟩ := send_message_img_error_inv userId fresh now d st hacc
  rw [send_message_img_accept userId fresh now d st h1 h2 h3 h4]
  simp only [hch, Option.getD_some]
  have hne : getChannel st ch ≠ [] := by
    intro hnil
    rw [hnil] at hfull
    simp [MAX_MESSAGES_PER_CHANNEL_IMG] at hfull
  refine ⟨?_, by simp, by simp⟩
  rw [if_pos (by simp only [List.length_append, List.length_cons, List.length_nil]; omega)]
  rw [List.head?_append_of_ne_nil _ hne, hhead]
  simp [deleteMessageImage, href]

/-- Witness for C6: a full 25-message channel whose oldest message carries
`/uploads/pic.png`; the accepted submission issues exactly that one
deletion request. -/
theorem evicted_image_single_delete_witness :
    (send_message_img "u9" "f9" "t9" sampleSend
        { channel1 := sampleImgMsg :: List.replicate 24 sampleMsg,
          channel2 := [] }).deletedImages = ["/uploads/pic.png"] := by
  have h := evicted_image_single_delete "u9" "f9" "t9" sampleSend
    { channel1 := sampleImgMsg :: List.replicate 24 sampleMsg, channel2 := [] }
    "channel1" sampleImgMsg "/uploads/pic.png" rfl (by decide) (by decide)
    (by decide) rfl
  exact h.1

/-- C7: clearing with target "both" and clearing with the target absent
produce identical results in both variants; with the correct secret both
channels become empty and the cleared-notice carries "both". -/
theorem clear_chat_both_absent_equiv
    (adminSecret secret : Option String) (st : Messages) :
    clear_chat adminSecret { channel := some "both", secret := secret } st
      = clear_chat adminSecret { channel := none, secret := secret } st ∧
    clear_chat_img adminSecret { channel := some "both", secret := secret } st
      = clear_chat_img adminSecret { channel := none, secret := secret } st ∧
    (secret = adminSecret →
      (clear_chat adminSecret { channel := some "both", secret := secret } st).state
        = initialMessages ∧
      (clear_chat adminSecret
          { channel := some "both", secret := secret } st).clearedBroadcast
        = some "both" ∧
      (clear_chat_img adminSecret { channel := some "both", secret := secret } st).state
        = initialMessages ∧
      (clear_chat_img adminSecret
          { channel := some "both", secret := secret } st).clearedBroadcast
        = some "both") := by
  by_cases hs : secret = adminSecret <;>
    simp [clear_chat, clear_chat_img, clearError, clearChannelInvalid, chTruthy,
      truthyOr, initialMessages, hs]

/-- Witness for C7 with a matching secret and a non-empty state. -/
theorem clear_chat_both_absent_equiv_witness :
    clear_chat (some "k") { channel := some "both", secret := some "k" }
        { channel1 := [sampleMsg], channel2 := [sampleImgMsg] }
      = clear_chat (some "k") { channel := none, secret := some "k" }
        { channel1 := [sampleMsg], channel2 := [sampleImgMsg] } ∧
    (clear_chat (some "k") { channel := some "both", secret := some "k" }
        { channel1 := [sampleMsg], channel2 := [sampleImgMsg] }).state
      = initialMessages := by
  have h := clear_chat_both_absent_equiv (some "k") (some "k")
    { channel1 := [sampleMsg], channel2 := [sampleImgMsg] }
  exact ⟨h.1, (h.2.2 rfl).1⟩

/-- C8: when `ADMIN_SECRET` is unset (undefined) a clear request whose
secret field is also absent passes the authorization check (undefined
equals undefined) and clears the channels — the Unauthorized branch is not
taken, in either variant. -/
theorem clear_chat_unset_secret (st : Messages) :
    (clear_chat none { channel := none, secret := none } st).errorToSender = none ∧
    (clear_chat none { channel := none, secret := none } st).state
      = initialMessages ∧
    (clear_chat none { channel := none, secret := none } st).saved = true ∧
    (clear_chat none { channel := none, secret := none } st).clearedBroadcast
      = some "both" ∧
    (clear_chat none { channel := none, secret := none } st).historyBroadcast = true ∧
    (clear_chat_img none { channel := none, secret := none } st).errorToSender = none ∧
    (clear_chat_img none { channel := none, secret := none } st).state
      = initialMessages ∧
    (clear_chat_img none { channel := none, secret := none } st).saved = true ∧
    (clear_chat_img none { channel := none, secret := none } st).clearedBroadcast
      = some "both" := by
  simp [clear_chat, clear_chat_img, clearChannelInvalid, chTruthy, truthyOr,
    initialMessages]

/-- C9: an accepted submission removes at most one message: a channel
already holding strictly more than the configured maximum (e.g. loaded
from an oversized snapshot, which load does not truncate) keeps exactly
its length — one message appended, one evicted — in both variants. -/
theorem oversized_channel_length_preserved
    (userId fresh now : String) (d : SendData) (stT stI : Messages) (ch : String)
    (hch : d.channel = some ch)
    (haccT : (send_message userId fresh now d stT).errorToSender = none)
    (hlenT : MAX_MESSAGES_PER_CHANNEL < (getChannel stT ch).length)
    (haccI : (send_message_img userId fresh now d stI).errorToSender = none)
    (hlenI : MAX_MESSAGES_PER_CHANNEL_IMG < (getChannel stI ch).length) :
    (getChannel (send_message userId fresh now d stT).state ch).length
      = (getChannel stT ch).length ∧
    (getChannel (send_message_img userId fresh now d stI).state ch).length
      = (getChannel stI ch).length := by
  constructor
  · rw [send_message_fifo userId fresh now d stT ch hch haccT (Nat.le_of_lt hlenT)]
    simp only [List.length_append, List.length_tail, List.length_cons,
      List.length_nil]
    omega
  · rw [send_message_img_fifo userId fresh now d stI ch hch haccI (Nat.le_of_lt hlenI)]
    simp only [List.length_append, List.length_tail, List.length_cons,
      List.length_nil]
    omega

/-- Witness for C9 at channels of 51 and 26 messages. -/
theorem oversized_channel_length_preserved_witness :
    (getChannel (send_message "u9" "f9" "t9" sampleSend
        { channel1 := List.replicate 51 sampleMsg, channel2 := [] }).state
        "channel1").length
      = (getChannel { channel1 := List.replicate 51 sampleMsg, channel2 := [] }
          "channel1").length ∧
    (getChannel (send_message_img "u9" "f9" "t9" sampleSend
        { channel1 := List.replicate 26 sampleMsg, channel2 := [] }).state
        "channel1").length
      = (getChannel { channel1 := List.replicate 26 sampleMsg, channel2 := [] }
          "channel1").length :=
  oversized_channel_length_preserved "u9" "f9" "t9" sampleSend
    { channel1 := List.replicate 51 sampleMsg, channel2 := [] }
    { channel1 := List.replicate 26 sampleMsg, channel2 := [] }
    "channel1" rfl (by decide) (by decide) (by decide) (by decide)

/-- C10: in the image variant, a submission with non-empty trimmed text
and an image reference that does not start with "/uploads/" is accepted,
but the stored and broadcast message carries no image reference — the
invalid reference is silently discarded rather than rejected. -/
theorem invalid_image_ref_discarded
    (userId fresh now : String) (d : SendData) (st : Messages)
    (ch : String) (url : String)
    (hch : d.channel = some ch)
    (hvc : isValidChannel d.channel = true)
    (h2 : usernameOk d.username = true)
    (h3 : messageOk d.message = true)
    (h4 : ¬ MAX_MESSAGE_LENGTH < (d.message.getD "").length)
    (hurl : d.imageUrl = some url)
    (hpre : jsStartsWith url "/uploads/" = false) :
    (send_message_img userId fresh now d st).errorToSender = none ∧
    (send_message_img userId fresh now d st).broadcast
      = some (ch, mkImgMessage userId fresh now d) ∧
    (mkImgMessage userId fresh now d).imageUrl = none ∧
    (getChannel (send_message_img userId fresh now d st).state ch).getLast?
      = some (mkImgMessage userId fresh now d) := by
  have hImg : hasImageB d.imageUrl = false := by
    rw [hurl]
    simp [hasImageB, hpre]
  have h3' : (!messageOk d.message && !hasImageB d.imageUrl) = false := by
    simp [h3]
  have h4' : (messageOk d.message &&
      decide (MAX_MESSAGE_LENGTH < (d.message.getD "").length)) = false := by
    simp [h4]
  rw [send_message_img_accept userId fresh now d st hvc h2 h3' h4']
  simp only [hch, Option.getD_some]
  refine ⟨by simp, by simp, ?_, ?_⟩
  · simp [mkImgMessage, hImg]
  · rw [getChannel_setChannel_self]
    exact evict_getLast _ _ _ (by simp [MAX_MESSAGES_PER_CHANNEL_IMG])

/-- Witness for C10: text "hi" with an external https image reference is
accepted and stored without an image reference. -/
theorem invalid_image_ref_discarded_witness :
    (send_message_img "u9" "f9" "t9" badImgSend initialMessages).errorToSender
      = none ∧
    (mkImgMessage "u9" "f9" "t9" badImgSend).imageUrl = none := by
  have h := invalid_image_ref_discarded "u9" "f9" "t9" badImgSend initialMessages
    "channel1" "https://example.com/pic.png" rfl (by decide) (by decide)
    (by decide) (by decide) rfl (by decide)
  exact ⟨h.1, h.2.2.1⟩

end ChatBackend
